import Mathlib

/-
Shallow embedding of the event-driven integration layer and edge gateway of
the rodent-care backend, together with proofs of the specified properties.

Components modelled (each from its Rust source module):
  * the sliding-window rate limiter        (api-gateway/src/rate_limiter.rs)
  * the auth delegate middleware           (api-gateway/src/middleware.rs)
  * the reverse proxy and error mapping    (api-gateway/src/proxy.rs, error.rs)
  * the analytics event consumer           (analytics-service/src/messaging.rs)
  * the activity-tracking event publisher  (activity-tracking-service/src/messaging.rs)

Machine integers are modelled as Nat (no arithmetic in this code overflows),
time instants as Nat, fallible operations as Except, and the I/O environment
(broker, identity service, upstream HTTP service, database) as explicit
oracle values describing the outcome of each external call the code makes.
-/

set_option autoImplicit false
set_option linter.dupNamespace false

namespace RodentCare

/-- Decidable equality for Except values, used to evaluate concrete runs. -/
instance exceptDecEq {ε α : Type} [DecidableEq ε] [DecidableEq α] :
    DecidableEq (Except ε α) := by
  intro a b
  cases a <;> cases b
  case error.error e1 e2 =>
    exact if h : e1 = e2 then .isTrue (by rw [h]) else .isFalse (by simp [h])
  case ok.ok v1 v2 =>
    exact if h : v1 = v2 then .isTrue (by rw [h]) else .isFalse (by simp [h])
  case error.ok e v => exact .isFalse (by simp)
  case ok.error v e => exact .isFalse (by simp)

/-! ## Rate limiter (api-gateway/src/rate_limiter.rs)

The DashMap of per-key timestamp vectors is modelled as an association list
from keys to lists of Nat instants; `Instant::now()` is passed in explicitly
as the `now` argument, and `now.duration_since(t) < window` becomes
`now - t < window` on Nat. -/

namespace RateLimiter

/-- State of the rate limiter: the per-key request-timestamp map plus the
fixed configuration. -/
structure RateLimiter where
  requests : List (String × List Nat)
  max_requests : Nat
  window : Nat
deriving DecidableEq

/-- Association-list lookup, modelling map access by key. -/
def lookupKey (key : String) : List (String × List Nat) → Option (List Nat)
  | [] => none
  | (k, v) :: rest => if k = key then some v else lookupKey key rest

/-- Association-list update, modelling the DashMap entry API: updates the
value in place when the key is present, appends a fresh entry otherwise. -/
def setKey (key : String) (v : List Nat) :
    List (String × List Nat) → List (String × List Nat)
  | [] => [(key, v)]
  | (k, w) :: rest =>
      if k = key then (k, v) :: rest else (k, w) :: setKey key v rest

/-- The retain predicate of the source: a timestamp is kept when
`now.duration_since(time) < self.window`. -/
def inWindow (now window t : Nat) : Bool := now - t < window

/-- The `retain` call: drop every timestamp outside the trailing window. -/
def prune (now window : Nat) (l : List Nat) : List Nat :=
  l.filter (inWindow now window)

/-- RateLimiter::new. -/
def new (max_requests : Nat) (window : Nat) : RateLimiter :=
  { requests := [], max_requests := max_requests, window := window }

/-- RateLimiter::check_rate_limit: look up (or create) the entry for the key,
prune timestamps outside the window, then either deny (at or above the
maximum) or record the current instant and allow. -/
def check_rate_limit (rl : RateLimiter) (key : String) (now : Nat) :
    Bool × RateLimiter :=
  let cur := (lookupKey key rl.requests).getD []
  let pruned := prune now rl.window cur
  if rl.max_requests ≤ pruned.length then
    (false, { rl with requests := setKey key pruned rl.requests })
  else
    (true, { rl with requests := setKey key (pruned ++ [now]) rl.requests })

/-- RateLimiter::get_remaining: when the key is present, prune its timestamps
in place and return the saturating difference max - count; when absent,
return the maximum and leave the map untouched. -/
def get_remaining (rl : RateLimiter) (key : String) (now : Nat) :
    Nat × RateLimiter :=
  match lookupKey key rl.requests with
  | some l =>
      let pruned := prune now rl.window l
      (rl.max_requests - pruned.length,
       { rl with requests := setKey key pruned rl.requests })
  | none => (rl.max_requests, rl)

/-- Driver running check_rate_limit once per instant in the list, collecting
the verdicts and the final state. -/
def checkSeq (rl : RateLimiter) (key : String) :
    List Nat → List Bool × RateLimiter
  | [] => ([], rl)
  | t :: ts =>
      let r := check_rate_limit rl key t
      let rest := checkSeq r.2 key ts
      (r.1 :: rest.1, rest.2)

end RateLimiter

/-! ## Analytics event consumer (analytics-service/src/messaging.rs)

The raw delivery bytes are abstracted by the outcomes of the decoding steps
the code performs on them: UTF-8 validation, the generic serde parse that
extracts `event_type` and `event_id`, and the per-type typed parse. The
MongoDB insert is an oracle Bool. The five per-type handlers are embedded
from the source: each one only logs and returns Ok. -/

namespace Analytics

/-- GenericEvent: the fields the consumer extracts from any event body. -/
structure GenericEvent where
  event_type : String
  event_id : String
  timestamp : Nat
deriving DecidableEq

/-- Outcome of the decoding steps applied to one delivery body. `utf8Ok`
models `String::from_utf8`, `generic` the serde parse into GenericEvent,
`typedOk` the parse into the matching typed event struct, and `jsonValue`
the opaque `serde_json::Value` stored in the audit record. -/
structure MessageData where
  utf8Ok : Bool
  generic : Option GenericEvent
  typedOk : Bool
  jsonValue : Nat
deriving DecidableEq

/-- AnalyticsEventLog, the audit record persisted to the event_logs
collection (analytics-service/src/events.rs). -/
structure AnalyticsEventLog where
  id : Option Nat
  event_type : String
  event_id : String
  routing_key : String
  payload : Nat
  received_at : Nat
  processed : Bool
deriving DecidableEq

/-- EventConsumer::handle_daily_metrics: logs and returns Ok. -/
def handle_daily_metrics (_e : GenericEvent) : Except String Unit := .ok ()

/-- EventConsumer::handle_feeding: logs and returns Ok. -/
def handle_feeding (_e : GenericEvent) : Except String Unit := .ok ()

/-- EventConsumer::handle_rodent_registered: logs and returns Ok. -/
def handle_rodent_registered (_e : GenericEvent) : Except String Unit := .ok ()

/-- EventConsumer::handle_status_changed: logs and returns Ok. -/
def handle_status_changed (_e : GenericEvent) : Except String Unit := .ok ()

/-- EventConsumer::handle_medical_treatment: logs and returns Ok. -/
def handle_medical_treatment (_e : GenericEvent) : Except String Unit := .ok ()

/-- The match on `generic.event_type` in process_event: the five known types
attempt the typed parse and run their handler; an unknown type is logged and
skipped without failing. -/
def dispatch (d : MessageData) (g : GenericEvent) : Except String Unit :=
  if g.event_type = "DailyMetricsRecorded" then
    if d.typedOk then handle_daily_metrics g
    else .error "Failed to parse DailyMetricsRecorded"
  else if g.event_type = "FeedingRecorded" then
    if d.typedOk then handle_feeding g
    else .error "Failed to parse FeedingRecorded"
  else if g.event_type = "RodentRegistered" then
    if d.typedOk then handle_rodent_registered g
    else .error "Failed to parse RodentRegistered"
  else if g.event_type = "RodentStatusChanged" then
    if d.typedOk then handle_status_changed g
    else .error "Failed to parse RodentStatusChanged"
  else if g.event_type = "MedicalTreatmentAdded" then
    if d.typedOk then handle_medical_treatment g
    else .error "Failed to parse MedicalTreatmentAdded"
  else .ok ()

/-- EventConsumer::process_event. Returns the Result the Rust function
returns together with the list of audit records inserted into the store
during the call (empty or a singleton). Every early `?` return happens
before the audit insert, exactly as in the source; `ins` is the oracle for
the `insert_one` call, and `now` models `chrono::Utc::now()`. -/
def process_event (routing_key : String) (d : MessageData) (now : Nat)
    (ins : Bool) : Except String Unit × List AnalyticsEventLog :=
  if d.utf8Ok = false then (Except.error "invalid utf8", [])
  else
    match d.generic with
    | none => (Except.error "Failed to parse event", [])
    | some g =>
        match dispatch d g with
        | .error e => (Except.error e, [])
        | .ok _ =>
            let event_log : AnalyticsEventLog :=
              { id := none
                event_type := g.event_type
                event_id := g.event_id
                routing_key := routing_key
                payload := d.jsonValue
                received_at := now
                processed := true }
            if ins then (Except.ok (), [event_log])
            else (Except.error "Failed to log event", [])

/-- A delivery pulled from the consumer stream: its routing key and the
abstraction of its body bytes. -/
structure Delivery where
  routing_key : String
  data : MessageData
deriving DecidableEq

/-- The acknowledgment decision taken for a delivery. The broker API also
offers negative acknowledgment / leaving the delivery unacknowledged; the
embedding keeps those alternatives so the always-ack property is contentful. -/
inductive AckAction where
  | ack
  | nack
  | unacked
deriving DecidableEq

/-- The per-delivery body of the consume loop (messaging.rs lines 102-120):
match on process_event and acknowledge in both the Ok and the Err arm,
keeping the processing result only for logging. -/
def handle_delivery (db : Bool) (now : Nat) (d : Delivery) :
    AckAction × Except String Unit :=
  match (process_event d.routing_key d.data now db).1 with
  | .ok u => (AckAction.ack, Except.ok u)
  | .error e => (AckAction.ack, Except.error e)

/-- The while-let consume loop over the finite stream of delivery results:
an Err item from the stream is logged and skipped, an Ok delivery is
processed and acknowledged. Returns the per-delivery ack decisions. -/
def run_stream (db : Bool) (now : Nat) :
    List (Except Unit Delivery) → List (Delivery × AckAction)
  | [] => []
  | .error _ :: rest => run_stream db now rest
  | .ok d :: rest =>
      (d, (handle_delivery db now d).1) :: run_stream db now rest

/-- Environment of one start_consuming session: an oracle per connection
setup step, the database oracle, the clock, and the (finite) delivery
stream. -/
structure SessionEnv where
  connectOk : Bool
  channelOk : Bool
  exchangeOk : Bool
  queueOk : Bool
  bindActivityOk : Bool
  bindRegistryOk : Bool
  consumeOk : Bool
  db : Bool
  now : Nat
  stream : List (Except Unit Delivery)
deriving DecidableEq

/-- True when some connection-setup step of the session fails (any of the
`?` operators before the consume loop returns early). -/
def setupFails (env : SessionEnv) : Bool :=
  !(env.connectOk && env.channelOk && env.exchangeOk && env.queueOk &&
    env.bindActivityOk && env.bindRegistryOk && env.consumeOk)

/-- EventConsumer::start_consuming: connect, create the channel, declare the
exchange and queue, bind both patterns, start consuming — each step
propagating its error with `?` — then run the delivery loop; when the
stream ends the function returns Ok. -/
def start_consuming (env : SessionEnv) :
    Except Unit (List (Delivery × AckAction)) :=
  if env.connectOk = false then .error ()
  else if env.channelOk = false then .error ()
  else if env.exchangeOk = false then .error ()
  else if env.queueOk = false then .error ()
  else if env.bindActivityOk = false then .error ()
  else if env.bindRegistryOk = false then .error ()
  else if env.consumeOk = false then .error ()
  else .ok (run_stream env.db env.now env.stream)

/-- Outcome of the spawned consumer task after attempting the given
sessions: either it broke out of the loop (start_consuming returned Ok), or
every attempted session failed and it is still retrying. `sessions` counts
the start_consuming calls made, `backoffs` the 5-second sleeps taken. -/
inductive LoopOutcome where
  | stopped (sessions : Nat) (backoffs : Nat)
  | retrying (sessions : Nat) (backoffs : Nat)
deriving DecidableEq

/-- The retry loop of spawn_consumer, driven by the environments of the
successive session attempts: Ok breaks out of the loop, Err sleeps the
fixed backoff and retries. -/
def spawn_consumer_loop : List SessionEnv → LoopOutcome
  | [] => .retrying 0 0
  | env :: rest =>
      match start_consuming env with
      | .ok _ => .stopped 1 0
      | .error _ =>
          match spawn_consumer_loop rest with
          | .stopped n b => .stopped (n + 1) (b + 1)
          | .retrying n b => .retrying (n + 1) (b + 1)

end Analytics

/-! ## Gateway error type (api-gateway/src/error.rs) -/

namespace Gateway

/-- GatewayError (error.rs). -/
inductive GatewayError where
  | invalidToken
  | tokenExpired
  | accessDenied
  | rateLimitExceeded
  | serviceUnavailable (msg : String)
  | badGateway (msg : String)
  | internalError
deriving DecidableEq

/-- The HTTP status chosen by GatewayError::into_response. -/
def statusCode : GatewayError → Nat
  | .invalidToken => 401
  | .tokenExpired => 401
  | .accessDenied => 403
  | .rateLimitExceeded => 429
  | .serviceUnavailable _ => 503
  | .badGateway _ => 502
  | .internalError => 500

/-! ## Auth delegate middleware (api-gateway/src/middleware.rs)

The outbound HTTP call to the identity service is an oracle describing how
the one request the middleware sends turns out; the body parse result is
folded into the same oracle. -/

/-- TokenValidationResponse (middleware.rs): the parsed identity-service
reply. -/
structure TokenValidationResponse where
  valid : Bool
  user_id : Option String
  username : Option String
  role : Option String
deriving DecidableEq

/-- AuthInfo (middleware.rs): the identity attached to the request
extensions. -/
structure AuthInfo where
  user_id : String
  username : String
  role : String
deriving DecidableEq

/-- Outcome of the identity-service validation call: transport failure of
`send()`, failure of `text()`, failure of the serde parse, or a parsed
TokenValidationResponse. -/
inductive ValidationCall where
  | transportError
  | bodyReadError
  | parseError
  | parsed (r : TokenValidationResponse)
deriving DecidableEq

/-- Result of the middleware: either a rejection with a GatewayError, or the
request forwarded to the downstream handler carrying the AuthInfo extension
when one was attached. -/
inductive AuthOutcome where
  | rejected (e : GatewayError)
  | forwarded (auth : Option AuthInfo)
deriving DecidableEq

/-- The token extraction of auth_middleware: a header matching the pattern
`Some(header) if header.starts_with("Bearer ")` yields `&header[7..]`,
anything else is None. -/
def bearerToken (h : Option String) : Option String :=
  match h with
  | some s =>
      if s.toList.take 7 = "Bearer ".toList then some (s.drop 7) else none
  | none => none

/-- auth_middleware (middleware.rs lines 48-114): extract the bearer token,
call the identity service, map the call failures, reject when `valid` is
false, and otherwise forward — attaching AuthInfo only when all three
identity fields are present. -/
def auth_middleware (authHeader : Option String) (call : ValidationCall) :
    AuthOutcome :=
  match bearerToken authHeader with
  | none => .rejected .invalidToken
  | some _token =>
      match call with
      | .transportError =>
          .rejected (.serviceUnavailable "User service unavailable")
      | .bodyReadError => .rejected .internalError
      | .parseError => .rejected .internalError
      | .parsed v =>
          if v.valid = false then .rejected .invalidToken
          else
            match v.user_id, v.username, v.role with
            | some u, some n, some r =>
                .forwarded (some { user_id := u, username := n, role := r })
            | _, _, _ => .forwarded none

/-! ## Reverse proxy (api-gateway/src/proxy.rs)

Header values are byte lists; `HeaderValue::to_str` succeeds exactly on
visible ASCII (and tab), and headers whose values fail it are silently
skipped by the forwarding loops. Header names are lowercase, as normalized
by the HTTP layer. -/

/-- A header entry: lowercase name and raw value bytes. -/
structure Header where
  name : String
  value : List Nat
deriving DecidableEq

/-- A byte accepted by HeaderValue::to_str: visible ASCII, space or tab. -/
def visibleAscii (b : Nat) : Bool := (32 ≤ b && b < 127) || b = 9

/-- HeaderValue::to_str: succeeds iff every byte is visible ASCII. -/
def headerToStr (v : List Nat) : Option (List Nat) :=
  if v.all visibleAscii then some v else none

/-- An inbound request as the proxy sees it: method, original path and
query, headers, and the outcome of buffering the request body. -/
structure InboundRequest where
  method : String
  pathAndQuery : String
  headers : List Header
  bodyRead : Except Unit (List Nat)
deriving DecidableEq

/-- The outbound request the proxy hands to the HTTP client. -/
structure OutboundRequest where
  method : String
  url : String
  headers : List Header
  body : Option (List Nat)
deriving DecidableEq

/-- A character allowed in an HTTP method token, as accepted by
reqwest::Method::from_bytes. -/
def isTokenChar (c : Char) : Bool :=
  c.isAlphanum ||
    c.toNat ∈ [33, 35, 36, 37, 38, 39, 42, 43, 45, 46, 94, 95, 96, 124, 126]

/-- reqwest::Method::from_bytes on the axum method string: succeeds iff the
string is a nonempty token, and then preserves it. -/
def reqwestMethod (m : String) : Option String :=
  if m.length ≠ 0 && m.toList.all isTokenChar then some m else none

/-- The request-header forwarding loop: skip the Host header, skip values
that fail to_str, forward the rest unchanged. -/
def forwardHeaders (hs : List Header) : List Header :=
  hs.filterMap (fun h =>
    if h.name = "host" then none
    else
      match headerToStr h.value with
      | some v => some { name := h.name, value := v }
      | none => none)

/-- The response-header copying loop: same to_str filtering, no Host
exclusion. -/
def responseHeaders (hs : List Header) : List Header :=
  hs.filterMap (fun h =>
    match headerToStr h.value with
    | some v => some { name := h.name, value := v }
    | none => none)

/-- The methods for which the proxy buffers and forwards the body. -/
def bodyMethods : List String := ["POST", "PUT", "PATCH"]

/-- The request-construction half of proxy_request (lines 16-49): build the
upstream URL by re-inserting the fixed api segment, convert the method,
forward the filtered headers, and buffer the body for POST, PUT, PATCH. -/
def build_outbound (targetUrl : String) (req : InboundRequest) :
    Except GatewayError OutboundRequest :=
  match reqwestMethod req.method with
  | none => .error .internalError
  | some m =>
      let url := targetUrl ++ "/api" ++ req.pathAndQuery
      let hs := forwardHeaders req.headers
      if req.method ∈ bodyMethods then
        match req.bodyRead with
        | .error _ => .error .internalError
        | .ok b =>
            .ok { method := m, url := url, headers := hs, body := some b }
      else .ok { method := m, url := url, headers := hs, body := none }

/-- The upstream reply as observed by the proxy: status, headers, and the
outcome of reading the response body bytes. -/
structure UpstreamResponse where
  status : Nat
  headers : List Header
  bodyRead : Except Unit (List Nat)
deriving DecidableEq

/-- Outcome of `builder.send()`: a transport failure or an upstream
response. -/
inductive SendResult where
  | transportError
  | response (r : UpstreamResponse)
deriving DecidableEq

/-- The response the gateway returns to the client on the success path. -/
structure GatewayResponse where
  status : Nat
  headers : List Header
  body : List Nat
deriving DecidableEq

/-- proxy_request (proxy.rs): build and send the outbound request, mapping a
transport failure to ServiceUnavailable; read the upstream body, mapping a
read failure to BadGateway; otherwise rebuild the upstream status, filtered
headers and body into the gateway response. -/
def proxy_request (targetUrl : String) (req : InboundRequest)
    (send : SendResult) : Except GatewayError GatewayResponse :=
  match build_outbound targetUrl req with
  | .error e => .error e
  | .ok _out =>
      match send with
      | .transportError =>
          .error (.serviceUnavailable "Upstream service unavailable")
      | .response r =>
          match r.bodyRead with
          | .error _ => .error (.badGateway "Failed to read response body")
          | .ok b =>
              .ok { status := r.status
                    headers := responseHeaders r.headers
                    body := b }

end Gateway

/-! ## Event publisher (activity-tracking-service/src/messaging.rs)

The broker is an oracle giving the outcome of each primitive the code runs:
Connection::connect, create_channel, exchange_declare, basic_publish. The
RwLock-guarded `Option<Channel>` is the explicit publisher state, threaded
sequentially. -/

namespace Publisher

/-- Outcomes of the broker primitives during one call. -/
structure BrokerEnv where
  connectOk : Bool
  channelOk : Bool
  declareOk : Bool
  publishOk : Bool
deriving DecidableEq

/-- MessagePublisher state: the lock-guarded optional channel handle. -/
structure PublisherState where
  channel : Option Unit
deriving DecidableEq

/-- True when the connect-and-declare sequence of MessagePublisher::connect
succeeds end to end. -/
def connAvailable (env : BrokerEnv) : Bool :=
  env.connectOk && env.channelOk && env.declareOk

/-- A FeedingRecorded event as published by the activity-tracking service;
only identity fields are relevant to the messaging layer. -/
structure FeedingRecordedEvent where
  event_id : String
  rodent_id : String
deriving DecidableEq

/-- MessagePublisher::connect: connect, create a channel, declare the
durable topic exchange; on success store the channel in the state, on any
failure propagate the error leaving the state unchanged. -/
def connect (env : BrokerEnv) (st : PublisherState) :
    Except Unit PublisherState :=
  if env.connectOk = false then .error ()
  else if env.channelOk = false then .error ()
  else if env.declareOk = false then .error ()
  else .ok { channel := some () }

/-- MessagePublisher::new: start from the empty channel slot, try to
connect, and return Ok in every case — a connect failure is only logged. -/
def new (env : BrokerEnv) : Except Unit PublisherState :=
  let st : PublisherState := { channel := none }
  match connect env st with
  | .ok st2 => .ok st2
  | .error _ => .ok st

/-- MessagePublisher::ensure_connected: reconnect only when the channel slot
is empty. -/
def ensure_connected (env : BrokerEnv) (st : PublisherState) :
    Except Unit PublisherState :=
  match st.channel with
  | some _ => .ok st
  | none => connect env st

/-- MessagePublisher::publish_feeding: ensure a connection (turning a
failure into an error string), serialize, and publish on the stored channel
with the persistent delivery mode; a missing channel or a failed
basic_publish is again an error string, never a panic. -/
def publish_feeding (env : BrokerEnv) (_event : FeedingRecordedEvent)
    (st : PublisherState) : Except String Unit × PublisherState :=
  match ensure_connected env st with
  | .error _ => (Except.error "RabbitMQ connection failed", st)
  | .ok st2 =>
      match st2.channel with
      | some _ =>
          if env.publishOk then (Except.ok (), st2)
          else (Except.error "Failed to publish FeedingRecorded event", st2)
      | none => (Except.error "No RabbitMQ channel available", st2)

end Publisher

end RodentCare

/-! # Theorems -/

namespace RodentCare.RateLimiter

/-- Lookup after updating the same key yields the new value. -/
theorem lookup_setKey_self (k : String) (v : List Nat)
    (l : List (String × List Nat)) : lookupKey k (setKey k v l) = some v := by
  induction l with
  | nil => simp [setKey, lookupKey]
  | cons p rest ih =>
      obtain ⟨pk, pv⟩ := p
      by_cases h : pk = k
      · simp [setKey, lookupKey, h]
      · simp [setKey, lookupKey, h, ih]

/-- Lookup of a different key is unaffected by an update. -/
theorem lookup_setKey_ne (k k2 : String) (v : List Nat)
    (l : List (String × List Nat)) (h : k2 ≠ k) :
    lookupKey k2 (setKey k v l) = lookupKey k2 l := by
  have hne : ¬ k = k2 := fun h2 => h h2.symm
  induction l with
  | nil => simp [setKey, lookupKey, hne]
  | cons p rest ih =>
      obtain ⟨pk, pv⟩ := p
      by_cases hp : pk = k
      · subst hp
        simp [setKey, lookupKey, hne]
      · simp [setKey, lookupKey, hp, ih]

/-- Pruning at a later instant absorbs an earlier pruning: a timestamp
outside the window now is still outside it at any later instant. -/
theorem prune_prune (w now now2 : Nat) (h : now ≤ now2) (l : List Nat) :
    prune now2 w (prune now w l) = prune now2 w l := by
  unfold prune
  rw [List.filter_filter]
  apply List.filter_congr
  intro a _
  simp only [inWindow]
  by_cases hx : now2 - a < w
  · have hy : now - a < w := by omega
    simp [hx, hy]
  · simp [hx]

/-- C6: with max 3 and a 60-second window, three checks for a key inside one
window are all allowed and each appends its timestamp; a fourth check in the
same window is denied and leaves the state unchanged; once the window has
elapsed past the recorded timestamps a later check is allowed again. -/
theorem c6_sliding_window (K : String) (t1 t2 t3 t4 t5 : Nat)
    (h12 : t1 ≤ t2) (h23 : t2 ≤ t3) (h34 : t3 ≤ t4)
    (hwin : t4 - t1 < 60) (h5 : t3 + 60 ≤ t5) :
    (checkSeq (new 3 60) K [t1, t2, t3]).1 = [true, true, true]
    ∧ lookupKey K (checkSeq (new 3 60) K [t1, t2, t3]).2.requests
        = some [t1, t2, t3]
    ∧ (checkSeq (new 3 60) K [t1, t2, t3, t4]).1 = [true, true, true, false]
    ∧ (checkSeq (new 3 60) K [t1, t2, t3, t4]).2
        = (checkSeq (new 3 60) K [t1, t2, t3]).2
    ∧ (check_rate_limit (checkSeq (new 3 60) K [t1, t2, t3, t4]).2 K t5).1
        = true := by
  have f11 : t1 - t1 < 60 := by omega
  have f21 : t2 - t1 < 60 := by omega
  have f22 : t2 - t2 < 60 := by omega
  have f31 : t3 - t1 < 60 := by omega
  have f32 : t3 - t2 < 60 := by omega
  have f33 : t3 - t3 < 60 := by omega
  have f41 : t4 - t1 < 60 := hwin
  have f42 : t4 - t2 < 60 := by omega
  have f43 : t4 - t3 < 60 := by omega
  have g1 : ¬ t5 - t1 < 60 := by omega
  have g2 : ¬ t5 - t2 < 60 := by omega
  have g3 : ¬ t5 - t3 < 60 := by omega
  have e1 : check_rate_limit (new 3 60) K t1
      = (true, { requests := [(K, [t1])], max_requests := 3, window := 60 }) := by
    simp [check_rate_limit, new, lookupKey, prune, inWindow, setKey]
  have e2 : check_rate_limit
      { requests := [(K, [t1])], max_requests := 3, window := 60 } K t2
      = (true, { requests := [(K, [t1, t2])], max_requests := 3, window := 60 }) := by
    simp [check_rate_limit, lookupKey, prune, inWindow, setKey, f21]
  have e3 : check_rate_limit
      { requests := [(K, [t1, t2])], max_requests := 3, window := 60 } K t3
      = (true,
         { requests := [(K, [t1, t2, t3])], max_requests := 3, window := 60 }) := by
    simp [check_rate_limit, lookupKey, prune, inWindow, setKey, f31, f32]
  have e4 : check_rate_limit
      { requests := [(K, [t1, t2, t3])], max_requests := 3, window := 60 } K t4
      = (false,
         { requests := [(K, [t1, t2, t3])], max_requests := 3, window := 60 }) := by
    simp [check_rate_limit, lookupKey, prune, inWindow, setKey, f41, f42, f43]
  have e5 : (check_rate_limit
      { requests := [(K, [t1, t2, t3])], max_requests := 3, window := 60 } K t5).1
      = true := by
    simp [check_rate_limit, lookupKey, prune, inWindow, setKey, g1, g2, g3]
  refine ⟨?_, ?_, ?_, ?_, ?_⟩ <;>
    simp [checkSeq, e1, e2, e3, e4, e5, lookupKey]

/-- Witness for c6_sliding_window at the instants 0, 10, 20, 30, 95. -/
theorem c6_sliding_window_witness :
    (checkSeq (new 3 60) "K" [0, 10, 20, 30]).1 = [true, true, true, false]
    ∧ (check_rate_limit (checkSeq (new 3 60) "K" [0, 10, 20, 30]).2 "K" 95).1
        = true := by
  have h := c6_sliding_window "K" 0 10 20 30 95 (by omega) (by omega) (by omega)
    (by omega) (by omega)
  exact ⟨h.2.2.1, h.2.2.2.2⟩

/-- C7 counterexample: get_remaining does mutate the rate limiter state — on
a key holding one expired timestamp it prunes the stored list in place, so
the state after the call differs from the state before it. -/
theorem c7_get_remaining_mutates :
    (get_remaining
        { requests := [("k", [0])], max_requests := 3, window := 60 } "k" 100).2
      ≠ { requests := [("k", [0])], max_requests := 3, window := 60 } := by
  decide

/-- C7 as amended: get_remaining returns the configured maximum minus the
number of the key timestamps still inside the window; it adds no keys and no
timestamps (the only state change is pruning expired timestamps of the
queried key in place), and that pruning never changes the verdict of a
later check for the key. -/
theorem c7_remaining_amended (rl : RateLimiter) (key : String) (now : Nat) :
    (get_remaining rl key now).1
        = rl.max_requests
          - (prune now rl.window ((lookupKey key rl.requests).getD [])).length
    ∧ (get_remaining rl key now).2.max_requests = rl.max_requests
    ∧ (get_remaining rl key now).2.window = rl.window
    ∧ (∀ k2, k2 ≠ key →
        lookupKey k2 (get_remaining rl key now).2.requests
          = lookupKey k2 rl.requests)
    ∧ lookupKey key (get_remaining rl key now).2.requests
        = (lookupKey key rl.requests).map (prune now rl.window)
    ∧ (∀ now2, now ≤ now2 →
        (check_rate_limit (get_remaining rl key now).2 key now2).1
          = (check_rate_limit rl key now2).1) := by
  cases hl : lookupKey key rl.requests with
  | none =>
      refine ⟨?_, ?_, ?_, ?_, ?_, ?_⟩ <;>
        simp [get_remaining, hl, prune]
  | some l =>
      refine ⟨?_, ?_, ?_, ?_, ?_, ?_⟩
      · simp [get_remaining, hl]
      · simp [get_remaining, hl]
      · simp [get_remaining, hl]
      · intro k2 hk2
        simp [get_remaining, hl, lookup_setKey_ne key k2 _ _ hk2]
      · simp [get_remaining, hl, lookup_setKey_self]
      · intro now2 hle
        simp [get_remaining, hl, check_rate_limit, lookup_setKey_self,
              prune_prune rl.window now now2 hle]
        by_cases hc : rl.max_requests ≤ (prune now2 rl.window l).length <;>
          simp [hc]

/-- Witness for c7_remaining_amended: a key with one expired and one live
timestamp at instant 64 has two checks left, and the later check verdict is
unchanged by the pruning done inside get_remaining. -/
theorem c7_remaining_amended_witness :
    (get_remaining
        { requests := [("a", [0, 30])], max_requests := 3, window := 60 }
        "a" 64).1 = 2
    ∧ (check_rate_limit
        (get_remaining
          { requests := [("a", [0, 30])], max_requests := 3, window := 60 }
          "a" 64).2 "a" 70).1
      = (check_rate_limit
          { requests := [("a", [0, 30])], max_requests := 3, window := 60 }
          "a" 70).1 := by
  have h := c7_remaining_amended
    { requests := [("a", [0, 30])], max_requests := 3, window := 60 } "a" 64
  exact ⟨h.1.trans (by decide), h.2.2.2.2.2 70 (by omega)⟩

end RodentCare.RateLimiter

namespace RodentCare.Analytics

/-- C2 counterexample: a delivery whose body is valid generic JSON of a
known event type but fails the typed parse makes process_event return early
with an error, and no Audit Log Entry is persisted — even with the store
available. -/
theorem c2_no_audit_on_typed_parse_failure :
    process_event "activity.feeding"
        { utf8Ok := true
          generic := some
            { event_type := "FeedingRecorded", event_id := "e1", timestamp := 0 }
          typedOk := false
          jsonValue := 0 } 5 true
      = (Except.error "Failed to parse FeedingRecorded", []) := by
  decide

/-- C2 as amended: an Audit Log Entry is persisted exactly when the whole of
process_event succeeds — UTF-8 decoding, the generic parse, the dispatch
step (typed parse plus handler, or an unknown type) and the insert — and
then it is the single record built from the generic fields, the routing key
and the receive instant, with processed true; on any failure nothing is
persisted. -/
theorem c2_audit_iff_success (rk : String) (d : MessageData) (now : Nat)
    (ins : Bool) :
    ((process_event rk d now ins).2 ≠ []
        ↔ (process_event rk d now ins).1 = Except.ok ())
    ∧ (∀ g : GenericEvent, d.generic = some g →
        (process_event rk d now ins).1 = Except.ok () →
        (process_event rk d now ins).2
          = [{ id := none, event_type := g.event_type,
               event_id := g.event_id, routing_key := rk,
               payload := d.jsonValue, received_at := now,
               processed := true }]) := by
  rcases d with ⟨u, g, ty, j⟩
  cases u
  · simp [process_event]
  · cases g with
    | none => simp [process_event]
    | some ge =>
        cases hd : dispatch ⟨true, some ge, ty, j⟩ ge with
        | error e => simp [process_event, hd]
        | ok v =>
            cases ins
            · simp [process_event, hd]
            · simp [process_event, hd]

/-- Witness for c2_audit_iff_success: a fully successful delivery persists
exactly its audit record. -/
theorem c2_audit_iff_success_witness :
    (process_event "activity.feeding"
        { utf8Ok := true
          generic := some
            { event_type := "FeedingRecorded", event_id := "e1", timestamp := 0 }
          typedOk := true
          jsonValue := 7 } 5 true).2
      = [{ id := none, event_type := "FeedingRecorded", event_id := "e1",
           routing_key := "activity.feeding", payload := 7, received_at := 5,
           processed := true }] := by
  have h := c2_audit_iff_success "activity.feeding"
    { utf8Ok := true
      generic := some
        { event_type := "FeedingRecorded", event_id := "e1", timestamp := 0 }
      typedOk := true
      jsonValue := 7 } 5 true
  exact h.2 _ rfl (by decide)

/-- The consume loop acknowledges in both arms of the match on the
processing result. -/
theorem handle_delivery_fst (db : Bool) (now : Nat) (d : Delivery) :
    (handle_delivery db now d).1 = AckAction.ack := by
  unfold handle_delivery
  rcases hpe : (process_event d.routing_key d.data now db).1 with e | u <;>
    simp [hpe]

/-- C3: every delivery received from the stream is processed exactly once
and acknowledged, and the acknowledgment action is ack regardless of the
success or failure of the per-message processing. -/
theorem c3_ack_unconditional (db : Bool) (now : Nat)
    (stream : List (Except Unit Delivery)) :
    ((run_stream db now stream).map Prod.fst
        = stream.filterMap Except.toOption)
    ∧ (∀ p ∈ run_stream db now stream, p.2 = AckAction.ack) := by
  induction stream with
  | nil => simp [run_stream]
  | cons r rest ih =>
      cases r with
      | error e =>
          simpa [run_stream, Except.toOption] using ih
      | ok d =>
          refine ⟨?_, ?_⟩
          · simpa [run_stream, Except.toOption] using ih.1
          · intro p hp
            rcases List.mem_cons.mp hp with hp | hp
            · rw [hp, handle_delivery_fst]
            · exact ih.2 p hp

/-- Witness for c3_ack_unconditional on a two-item stream holding one
delivery and one receive error. -/
theorem c3_ack_unconditional_witness :
    ((run_stream true 0
        [Except.ok { routing_key := "activity.feeding",
                     data := { utf8Ok := true, generic := none,
                               typedOk := true, jsonValue := 0 } },
         Except.error ()]).map Prod.fst
      = [{ routing_key := "activity.feeding",
           data := { utf8Ok := true, generic := none,
                     typedOk := true, jsonValue := 0 } }])
    ∧ (({ routing_key := "activity.feeding",
          data := { utf8Ok := true, generic := none,
                    typedOk := true, jsonValue := 0 } },
        AckAction.ack) : Delivery × AckAction).2 = AckAction.ack := by
  have h := c3_ack_unconditional true 0
    [Except.ok { routing_key := "activity.feeding",
                 data := { utf8Ok := true, generic := none,
                           typedOk := true, jsonValue := 0 } },
     Except.error ()]
  exact ⟨h.1.trans (by decide), h.2 _ (by decide)⟩

/-- A session with a failed setup step returns the connection error. -/
theorem start_consuming_setup_error (e : SessionEnv)
    (h : setupFails e = true) : start_consuming e = Except.error () := by
  rcases e with ⟨c1, c2, c3, c4, c5, c6, c7, db, now, stream⟩
  simp only [setupFails] at h
  cases c1 <;> cases c2 <;> cases c3 <;> cases c4 <;> cases c5 <;> cases c6 <;>
    cases c7 <;> simp_all [start_consuming]

/-- C4 counterexample: a session that connects and binds, whose consume
stream then yields an error and ends, is not restarted: the task takes zero
backoff sleeps and stops permanently. -/
theorem c4_stream_end_stops_consumer :
    spawn_consumer_loop
        [{ connectOk := true, channelOk := true, exchangeOk := true,
           queueOk := true, bindActivityOk := true, bindRegistryOk := true,
           consumeOk := true, db := true, now := 0,
           stream := [Except.error ()] }]
      = LoopOutcome.stopped 1 0 := by
  decide

/-- C4 as amended: a failure of connect, channel creation, declare, bind or
the basic_consume call makes start_consuming return an error, upon which the
task sleeps the fixed backoff and retries; while every session fails setup
this loop never stops — n failed sessions take n backoffs and keep
retrying. An error on the consume stream itself, by contrast, never
restarts the session, and the session ends in success when the stream
ends. -/
theorem c4_setup_errors_retry (envs : List SessionEnv)
    (h : ∀ e ∈ envs, setupFails e = true) :
    spawn_consumer_loop envs
        = LoopOutcome.retrying envs.length envs.length
    ∧ (∀ e : SessionEnv, setupFails e = false →
        start_consuming e = Except.ok (run_stream e.db e.now e.stream)) := by
  constructor
  · induction envs with
    | nil => simp [spawn_consumer_loop]
    | cons e rest ih =>
        have he : setupFails e = true := h e (List.mem_cons_self e rest)
        have hrest : ∀ e2 ∈ rest, setupFails e2 = true :=
          fun e2 h2 => h e2 (List.mem_cons_of_mem e h2)
        simp [spawn_consumer_loop, start_consuming_setup_error e he, ih hrest]
  · intro e he
    rcases e with ⟨c1, c2, c3, c4, c5, c6, c7, db, now, stream⟩
    simp only [setupFails] at he
    cases c1 <;> cases c2 <;> cases c3 <;> cases c4 <;> cases c5 <;>
      cases c6 <;> cases c7 <;> simp_all [start_consuming]

/-- Witness for c4_setup_errors_retry: two sessions failing at different
setup steps are both retried with a backoff each, and the loop is still
going. -/
theorem c4_setup_errors_retry_witness :
    spawn_consumer_loop
        [{ connectOk := false, channelOk := true, exchangeOk := true,
           queueOk := true, bindActivityOk := true, bindRegistryOk := true,
           consumeOk := true, db := true, now := 0, stream := [] },
         { connectOk := true, channelOk := true, exchangeOk := true,
           queueOk := false, bindActivityOk := true, bindRegistryOk := true,
           consumeOk := true, db := true, now := 0, stream := [] }]
      = LoopOutcome.retrying 2 2 :=
  (c4_setup_errors_retry _ (by decide)).1

/-- C10: every audit record process_event hands to the store has its
processed flag equal to true, whatever the routing key, body, clock, store
behaviour or event type. -/
theorem c10_processed_constant_true (rk : String) (d : MessageData)
    (now : Nat) (ins : Bool) (entry : AnalyticsEventLog)
    (h : entry ∈ (process_event rk d now ins).2) :
    entry.processed = true := by
  rcases d with ⟨u, g, ty, j⟩
  cases u
  · simp [process_event] at h
  · cases g with
    | none => simp [process_event] at h
    | some ge =>
        cases hd : dispatch ⟨true, some ge, ty, j⟩ ge with
        | error e => simp [process_event, hd] at h
        | ok v =>
            cases ins
            · simp [process_event, hd] at h
            · simp [process_event, hd] at h
              rw [h]

/-- Witness for c10_processed_constant_true on a persisted record of an
unknown event type. -/
theorem c10_processed_constant_true_witness :
    ({ id := none, event_type := "SomethingNew", event_id := "e9",
       routing_key := "registry.other", payload := 3, received_at := 8,
       processed := true } : AnalyticsEventLog).processed = true :=
  c10_processed_constant_true "registry.other"
    { utf8Ok := true
      generic := some
        { event_type := "SomethingNew", event_id := "e9", timestamp := 1 }
      typedOk := false
      jsonValue := 3 } 8 true _ (by decide)

end RodentCare.Analytics

namespace RodentCare.Gateway

/-- C1 counterexample: an identity-service reply with valid true but
user_id absent is not rejected — the middleware forwards the request to the
downstream handler, merely without attaching AuthInfo. -/
theorem c1_forwards_on_missing_user_id :
    auth_middleware (some "Bearer tok")
        (ValidationCall.parsed
          { valid := true, user_id := none, username := some "alice",
            role := some "keeper" })
      = AuthOutcome.forwarded none := by
  decide

/-- C1 as amended: when the identity service replies valid true with any of
the three identity fields absent, the middleware does not reject the
request; it forwards it to the downstream handler with no AuthInfo attached
to the request extensions. -/
theorem c1_missing_field_forwarded (ah : Option String) (tok : String)
    (v : TokenValidationResponse) (hb : bearerToken ah = some tok)
    (hv : v.valid = true)
    (hm : v.user_id = none ∨ v.username = none ∨ v.role = none) :
    auth_middleware ah (ValidationCall.parsed v)
      = AuthOutcome.forwarded none := by
  unfold auth_middleware
  rw [hb]
  rcases v with ⟨valid, uid, un, ro⟩
  simp only at hv
  subst hv
  cases uid <;> cases un <;> cases ro <;> simp_all

/-- Witness for c1_missing_field_forwarded with all three fields absent. -/
theorem c1_missing_field_forwarded_witness :
    auth_middleware (some "Bearer t")
        (ValidationCall.parsed
          { valid := true, user_id := none, username := none, role := none })
      = AuthOutcome.forwarded none :=
  c1_missing_field_forwarded (some "Bearer t") "t"
    { valid := true, user_id := none, username := none, role := none }
    (by decide) rfl (Or.inl rfl)

/-- C8: once the outbound request is built, a transport failure of the
upstream call maps to ServiceUnavailable rendered as 503 (not 500), a
failure to read the upstream response body maps to BadGateway rendered as
502, and otherwise the gateway response carries the upstream status code
and body. -/
theorem c8_upstream_error_mapping (t : String) (req : InboundRequest)
    (hok : ∃ out, build_outbound t req = Except.ok out) :
    (proxy_request t req SendResult.transportError
        = Except.error (.serviceUnavailable "Upstream service unavailable")
      ∧ statusCode (.serviceUnavailable "Upstream service unavailable") = 503
      ∧ (503 : Nat) ≠ 500)
    ∧ (∀ r : UpstreamResponse, r.bodyRead = Except.error () →
        proxy_request t req (SendResult.response r)
            = Except.error (.badGateway "Failed to read response body")
          ∧ statusCode (.badGateway "Failed to read response body") = 502)
    ∧ (∀ (r : UpstreamResponse) (b : List Nat), r.bodyRead = Except.ok b →
        ∃ resp, proxy_request t req (SendResult.response r) = Except.ok resp
          ∧ resp.status = r.status ∧ resp.body = b) := by
  obtain ⟨out, hout⟩ := hok
  refine ⟨⟨?_, rfl, by omega⟩, ?_, ?_⟩
  · simp [proxy_request, hout]
  · intro r hr
    exact ⟨by simp [proxy_request, hout, hr], rfl⟩
  · intro r b hr
    refine ⟨{ status := r.status, headers := responseHeaders r.headers,
              body := b }, ?_, rfl, rfl⟩
    simp [proxy_request, hout, hr]

/-- Witness for c8_upstream_error_mapping: a refused upstream connection
yields the 503 ServiceUnavailable gateway error. -/
theorem c8_upstream_error_mapping_witness :
    proxy_request "http://svc"
        { method := "GET", pathAndQuery := "/rodents", headers := [],
          bodyRead := Except.ok [] }
        SendResult.transportError
      = Except.error (.serviceUnavailable "Upstream service unavailable") :=
  (c8_upstream_error_mapping "http://svc"
    { method := "GET", pathAndQuery := "/rodents", headers := [],
      bodyRead := Except.ok [] }
    ⟨{ method := "GET", url := "http://svc/api/rodents", headers := [],
       body := none }, by decide⟩).1.1

/-- C9 counterexample: a non-Host request header whose value bytes are not
visible ASCII is silently dropped by the forwarding loop, so not all
request headers except Host are forwarded. -/
theorem c9_nonascii_header_dropped :
    build_outbound "http://u"
        { method := "GET", pathAndQuery := "/rodents",
          headers := [{ name := "x-trace", value := [200] }],
          bodyRead := Except.ok [] }
      = Except.ok { method := "GET", url := "http://u/api/rodents",
                    headers := [], body := none } := by
  decide

/-- The request-header forwarding loop keeps exactly the non-Host headers
whose values pass the to_str check, unchanged and in order. -/
theorem forwardHeaders_eq_filter (hs : List Header) :
    forwardHeaders hs
      = hs.filter (fun h => !(h.name = "host") && h.value.all visibleAscii) := by
  induction hs with
  | nil => rfl
  | cons h rest ih =>
      have hstep : forwardHeaders (h :: rest)
          = (if h.name = "host" then forwardHeaders rest
             else
               match headerToStr h.value with
               | some v => { name := h.name, value := v } :: forwardHeaders rest
               | none => forwardHeaders rest) := by
        unfold forwardHeaders
        rw [List.filterMap_cons]
        by_cases hn : h.name = "host"
        · simp [hn]
        · cases hv : headerToStr h.value <;> simp [hn, hv]
      rw [hstep, List.filter_cons]
      by_cases hn : h.name = "host"
      · simp [hn, ih]
      · cases hv : h.value.all visibleAscii
        · simp [hn, headerToStr, hv, ih]
        · simp [hn, headerToStr, hv, ih]

/-- C9 as amended: for a buffered request with a valid method token the
proxy builds the outbound request with the method preserved, the url equal
to the target base followed by the fixed api segment and the original path
and query, exactly the non-Host visible-ASCII headers forwarded, and the
full buffered body attached for POST, PUT and PATCH and no body
otherwise. -/
theorem c9_forwarding (t : String) (req : InboundRequest) (m : String)
    (b : List Nat) (hm : reqwestMethod req.method = some m)
    (hbody : req.bodyRead = Except.ok b) :
    ∃ out, build_outbound t req = Except.ok out
      ∧ out.method = req.method
      ∧ out.url = t ++ "/api" ++ req.pathAndQuery
      ∧ out.headers = req.headers.filter
          (fun h => !(h.name = "host") && h.value.all visibleAscii)
      ∧ out.body = (if req.method ∈ bodyMethods then some b else none) := by
  have hmm : m = req.method := by
    unfold reqwestMethod at hm
    split at hm
    · exact (Option.some.inj hm).symm
    · exact Option.noConfusion hm
  subst hmm
  by_cases hbm : req.method ∈ bodyMethods
  · refine ⟨{ method := req.method, url := t ++ "/api" ++ req.pathAndQuery,
              headers := forwardHeaders req.headers, body := some b },
      ?_, rfl, rfl, forwardHeaders_eq_filter req.headers, by simp [hbm]⟩
    simp [build_outbound, hm, hbm, hbody]
  · refine ⟨{ method := req.method, url := t ++ "/api" ++ req.pathAndQuery,
              headers := forwardHeaders req.headers, body := none },
      ?_, rfl, rfl, forwardHeaders_eq_filter req.headers, by simp [hbm]⟩
    simp [build_outbound, hm, hbm, hbody]

/-- Witness for c9_forwarding: a PUT with one plain header, one Host header
and a buffered body forwards the plain header only and keeps the body. -/
theorem c9_forwarding_witness :
    build_outbound "http://u"
        { method := "PUT", pathAndQuery := "/p",
          headers := [{ name := "accept", value := [42] },
                      { name := "host", value := [42] }],
          bodyRead := Except.ok [1, 2] }
      = Except.ok { method := "PUT", url := "http://u/api/p",
                    headers := [{ name := "accept", value := [42] }],
                    body := some [1, 2] } := by
  obtain ⟨out, h1, h2, h3, h4, h5⟩ := c9_forwarding "http://u"
    { method := "PUT", pathAndQuery := "/p",
      headers := [{ name := "accept", value := [42] },
                  { name := "host", value := [42] }],
      bodyRead := Except.ok [1, 2] } "PUT" [1, 2] (by decide) rfl
  rw [h1]
  rcases out with ⟨om, ou, oh, ob⟩
  simp only at h2 h3 h4 h5
  subst h2
  subst h3
  subst h4
  subst h5
  decide

end RodentCare.Gateway

namespace RodentCare.Publisher

/-- MessagePublisher::connect succeeds exactly when all three broker steps
succeed, and then stores the fresh channel. -/
theorem connect_eq (env : BrokerEnv) (st : PublisherState) :
    connect env st
      = (if connAvailable env then Except.ok { channel := some () }
         else Except.error ()) := by
  rcases env with ⟨c, ch, d, p⟩
  cases c <;> cases ch <;> cases d <;> simp [connect, connAvailable]

/-- C5: constructing the publisher never fails — with the broker down it
returns the disconnected state with no stored channel; a publish on the
disconnected state first reconnects and redeclares, so the first publish
after the broker becomes available succeeds and stores the channel; and
every failure mode of publish yields an error string, not an abort. -/
theorem c5_lazy_reconnect (e1 e2 : BrokerEnv) (ev : FeedingRecordedEvent) :
    Publisher.new e1
        = Except.ok
            { channel := if connAvailable e1 then some () else none }
    ∧ (∀ st : PublisherState, Publisher.new e1 = Except.ok st →
        connAvailable e1 = false → connAvailable e2 = true →
        e2.publishOk = true →
        (publish_feeding e2 ev st).1 = Except.ok ()
          ∧ (publish_feeding e2 ev st).2.channel = some ())
    ∧ (∀ st : PublisherState, connAvailable e2 = false → st.channel = none →
        (publish_feeding e2 ev st).1
          = Except.error "RabbitMQ connection failed")
    ∧ (∀ st : PublisherState, st.channel = some () → e2.publishOk = false →
        (publish_feeding e2 ev st).1
          = Except.error "Failed to publish FeedingRecorded event") := by
  refine ⟨?_, ?_, ?_, ?_⟩
  · simp only [Publisher.new, connect_eq]
    by_cases h1 : connAvailable e1 <;> simp [h1]
  · intro st hnew h1 h2 hp
    have hst : st = { channel := none } := by
      simp [Publisher.new, connect_eq, h1] at hnew
      exact hnew.symm
    subst hst
    constructor <;>
      simp [publish_feeding, ensure_connected, connect_eq, h2, hp]
  · intro st h2 hch
    simp [publish_feeding, ensure_connected, connect_eq, h2, hch]
  · intro st hch hp
    simp [publish_feeding, ensure_connected, hch, hp]

/-- Witness for c5_lazy_reconnect: broker down at construction, available
at the first publish, which succeeds. -/
theorem c5_lazy_reconnect_witness :
    (publish_feeding
        { connectOk := true, channelOk := true, declareOk := true,
          publishOk := true }
        { event_id := "e1", rodent_id := "r1" }
        { channel := none }).1
      = Except.ok () :=
  ((c5_lazy_reconnect
      { connectOk := false, channelOk := false, declareOk := false,
        publishOk := false }
      { connectOk := true, channelOk := true, declareOk := true,
        publishOk := true }
      { event_id := "e1", rodent_id := "r1" }).2.1
    { channel := none } (by decide) rfl rfl rfl).1

end RodentCare.Publisher
